import Mathlib

/-
Verification development for the f5-icontrol-rest client library.

The development shallowly embeds the transactional request/response
subsystem of the library:

* `IControlRestClient` (the session handle with its mutable transaction id),
* `IControlRestClient.request` (option building, coordination-header
  injection, outcome classification of the transport callback),
* the transaction lifecycle (`beginTransaction`, `commitTransaction`),
* `IControlRestError` (the error envelope constructor),
* `IControlRestResponse.expand` (client-side reference expansion),
* the validating factory `iControlRest`.

JavaScript dynamic values are embedded as the inductive `JSValue`; the
mutable `this.transactionId` field is threaded explicitly, and the order
of state mutation versus network calls is recorded as an explicit event
trace.  The HTTP transport (the `request` npm package) is an external
collaborator and is supplied as an oracle `Transport` mapping the fully
built request options to the transport outcome handed to the callback.
The `validator.isURL` check and the Node `url` module are likewise
external and are abstracted as function parameters.
-/

/-- Embedded JavaScript value: the dynamic values flowing through the
client (transaction ids, request bodies, parsed response payloads). -/
inductive JSValue where
  | null
  | undefined
  | bool (b : Bool)
  | num (n : Int)
  | str (s : String)
  | obj (fields : List (String × JSValue))

/-- JavaScript truthiness of an embedded value. -/
def truthy : JSValue → Bool
  | .null => false
  | .undefined => false
  | .bool b => b
  | .num n => n != 0
  | .str s => !s.isEmpty
  | .obj _ => true

/-- Is the value exactly JavaScript `null` (the strict comparison
`x !== null` is `!(isNull x)`). -/
def isNull : JSValue → Bool
  | .null => true
  | _ => false

/-- Is the value exactly `undefined` (strict `x !== undefined`). -/
def isUndefined : JSValue → Bool
  | .undefined => true
  | _ => false

/-- Is the value `null` or `undefined` (property access on these throws). -/
def isNullish : JSValue → Bool
  | .null => true
  | .undefined => true
  | _ => false

/-- Is the value exactly the boolean `true` (strict `x !== true` is the
negation of this). -/
def isStrictTrue : JSValue → Bool
  | .bool b => b
  | _ => false

/-- JavaScript string conversion, as performed by template literals. -/
def jsToString : JSValue → String
  | .null => "null"
  | .undefined => "undefined"
  | .bool b => if b then "true" else "false"
  | .num n => toString n
  | .str s => s
  | .obj _ => "[object Object]"

/-- Total property read: `undefined` for a missing field and for any
non-object receiver.  Only valid when the receiver is not nullish. -/
def jsGetD : JSValue → String → JSValue
  | .obj fs, k => (fs.lookup k).getD .undefined
  | _, _ => .undefined

/-- Property read with JavaScript exception behaviour: reading a property
of `null` or `undefined` throws a TypeError. -/
def jsGet : JSValue → String → Except String JSValue
  | .null, k => .error ("TypeError: cannot read property " ++ k ++ " of null")
  | .undefined, k => .error ("TypeError: cannot read property " ++ k ++ " of undefined")
  | v, k => .ok (jsGetD v k)

/-- Property assignment on an object field list: update the first
occurrence in place, append when absent (JavaScript object key update). -/
def setFields : List (String × JSValue) → String → JSValue → List (String × JSValue)
  | [], k, v => [(k, v)]
  | (k0, v0) :: rest, k, v =>
      if k0 == k then (k0, v) :: rest else (k0, v0) :: setFields rest k v

/-- Property assignment `x[k] = v`; silently a no-op on non-objects. -/
def jsSet : JSValue → String → JSValue → JSValue
  | .obj fs, k, v => .obj (setFields fs k v)
  | w, _, _ => w

/-- The keys visited by `for (const key in x)`: the own enumerable keys
of an object, nothing for the other values modelled here (primitive
string indices never match the suffix convention and are dropped). -/
def jsKeys : JSValue → List String
  | .obj fs => fs.map (fun p => p.1)
  | _ => []

/-- JavaScript `String.prototype.endsWith`, written with `takeRight`
and native string equality so the kernel can evaluate it. -/
def strEndsWith (s post : String) : Bool :=
  s.takeRight post.length == post

/-- JavaScript `String.prototype.startsWith`, kernel-evaluable. -/
def strStartsWith (s pre : String) : Bool :=
  s.take pre.length == pre

/-- Validated connection parameters held by a session
(`params` in the source: url, user, pass, strict, logger). -/
structure Params where
  url : String
  user : String
  pass : String
  strict : Bool := false
  logger : JSValue := .null

/-- Basic-auth credentials placed into the request options. -/
structure Auth where
  user : String
  pass : String

/-- The fully built options handed to the `request` npm package
(source lines building `options` inside `IControlRestClient.request`). -/
structure RequestOptions where
  method : String
  url : String
  auth : Auth
  headers : List (String × JSValue)
  timeout : Int
  json : Bool
  strictSSL : Bool
  body : Option JSValue

/-- The optional construction-time options overlay
(`this.options`, merged last via `Object.assign`): each field, when
present, replaces the computed one wholesale. -/
structure Overlay where
  method : Option String := none
  url : Option String := none
  auth : Option Auth := none
  headers : Option (List (String × JSValue)) := none
  timeout : Option Int := none
  json : Option Bool := none
  strictSSL : Option Bool := none
  body : Option (Option JSValue) := none

/-- `Object.assign({}, options, this.options)`: last write wins
field-by-field for the fields the dispatcher computes. -/
def applyOverlay (o : RequestOptions) (ov : Overlay) : RequestOptions where
  method := ov.method.getD o.method
  url := ov.url.getD o.url
  auth := ov.auth.getD o.auth
  headers := ov.headers.getD o.headers
  timeout := ov.timeout.getD o.timeout
  json := ov.json.getD o.json
  strictSSL := ov.strictSSL.getD o.strictSSL
  body := ov.body.getD o.body

/-- A request descriptor (`reqParams` destructured at the top of
`IControlRestClient.request`): method, uri, optional body, optional
transaction-bypass flag. -/
structure RequestDescriptor where
  method : String
  uri : String
  data : JSValue := .undefined
  ignoreTransaction : JSValue := .undefined

/-- The session handle.  `transactionId` starts as `null` in the
constructor and is mutated by the transaction lifecycle. -/
structure IControlRestClient where
  params : Params
  options : Overlay := {}
  transactionId : JSValue := .null

/-- `new IControlRestClient(params, options)`: `options || {}`,
`transactionId = null`. -/
def mkIControlRestClient (params : Params) (options : Option Overlay) : IControlRestClient where
  params := params
  options := options.getD {}
  transactionId := .null

/-- `isInTransactionMode()`: the strict comparison
`this.transactionId !== null`. -/
def IControlRestClient.isInTransactionMode (c : IControlRestClient) : Bool :=
  !(isNull c.transactionId)

/-- `setTransactionId(tid)`: unconditional assignment, returns `this`. -/
def IControlRestClient.setTransactionId (c : IControlRestClient) (tid : JSValue) : IControlRestClient :=
  { c with transactionId := tid }

/-- `getTransactionId()`: throws unless in transaction mode, else
returns the raw id. -/
def IControlRestClient.getTransactionId (c : IControlRestClient) : Except String JSValue :=
  if !(c.isInTransactionMode) then
    .error "Bad operation, client is not in transaction mode"
  else
    .ok c.transactionId

/-- Constructor parameters of `IControlRestError`
(`{message, httpStatus, client}`). -/
structure IControlRestErrorParams where
  message : JSValue
  httpStatus : Option Nat := none
  client : Option IControlRestClient := none

/-- `new Error(message)` semantics for the message: `undefined` yields
the empty string, any other value is stringified. -/
def errorSuper : JSValue → String
  | .undefined => ""
  | v => jsToString v

/-- The error envelope.  The source constructor runs `super(message)`
and assigns `this.httpStatus = httpStatus`; the destructured `client`
parameter is never stored. -/
structure IControlRestError where
  message : String
  httpStatus : Option Nat

/-- `new IControlRestError(params)`: note that `params.client` is
dropped on the floor, faithfully to the source. -/
def IControlRestError.create (p : IControlRestErrorParams) : IControlRestError where
  message := errorSuper p.message
  httpStatus := p.httpStatus

/-- The response envelope (`{request, data, client}`); of the raw
transport response only the status code is retained here. -/
structure IControlRestResponse where
  request : Option Nat
  data : JSValue
  client : IControlRestClient

/-- What the transport hands the callback `(e, r, obj)`: either an error
`e`, or a response `r` with its parsed body `obj`. -/
inductive TransportResult where
  | err (message : String)
  | resp (statusCode : Option Nat) (body : JSValue)

/-- Outcome of one dispatch as observed by the caller: the promise
rejects, resolves, or an exception escapes the callback (so the promise
never settles with a typed failure). -/
inductive DispatchOutcome where
  | threw (msg : String)
  | rejected (e : IControlRestError)
  | resolved (r : IControlRestResponse)

/-- The transport oracle: how the external HTTP stack answers the fully
built options of one call. -/
abbrev Transport := RequestOptions → TransportResult

/-- The guard `r.statusCode && r.statusCode != 200` of the callback:
true only for a truthy (present, nonzero) status code other than 200. -/
def statusTruthyAndNot200 : Option Nat → Bool
  | some n => (n != 0) && (n != 200)
  | none => false

/-- The callback body of `IControlRestClient.request` (source lines
143-152): classify the transport outcome. -/
def requestCallback (client : IControlRestClient) (t : TransportResult) : DispatchOutcome :=
  match t with
  | .err m =>
      .rejected (IControlRestError.create { message := .str m, client := some client })
  | .resp sc body =>
      if statusTruthyAndNot200 sc then
        match jsGet body "message" with
        | .error m => .threw m
        | .ok msg =>
            .rejected (IControlRestError.create
              { message := msg, httpStatus := sc, client := some client })
      else
        .resolved { request := sc, data := body, client := client }

/-- The options built by `IControlRestClient.request` before the call:
coordination header iff `this.transactionId && ignoreTransaction !== true`,
url concatenation, basic auth, fixed timeout, json, strictSSL, body iff
`data` is truthy, then the construction-time overlay merged on top. -/
def IControlRestClient.requestOptions (c : IControlRestClient) (d : RequestDescriptor) : RequestOptions :=
  let headers : List (String × JSValue) :=
    if truthy c.transactionId && !(isStrictTrue d.ignoreTransaction) then
      [("X-F5-REST-Coordination-Id", c.transactionId)]
    else []
  applyOverlay
    { method := d.method
      url := c.params.url ++ d.uri
      auth := { user := c.params.user, pass := c.params.pass }
      headers := headers
      timeout := 2000
      json := true
      strictSSL := c.params.strict
      body := if truthy d.data then some d.data else none }
    c.options

/-- One dispatch: build the options, ask the transport, classify.
Returns the issued options together with the observed outcome. -/
def IControlRestClient.request (c : IControlRestClient) (d : RequestDescriptor) (tr : Transport) :
    RequestOptions × DispatchOutcome :=
  let opts := c.requestOptions d
  (opts, requestCallback c (tr opts))

/-- A failure surfaced by a lifecycle operation: a synchronous throw or
an escaped exception on one hand, a rejected dispatch on the other. -/
inductive Failure where
  | threw (msg : String)
  | rejected (e : IControlRestError)

/-- Observable events of a lifecycle operation, in execution order:
mutations of `this.transactionId` and network calls issued. -/
inductive Event where
  | setTid (v : JSValue)
  | netCall (opts : RequestOptions)

/-- `beginTransaction()` (source lines 165-183): throw if already in
transaction mode; else POST `/mgmt/tm/transaction` with body `{}`, then
store `res.data.transId` and return `this`.  Result: the event trace,
the post-state of the session, and `some` failure when the operation
does not complete. -/
def beginTransaction (c : IControlRestClient) (tr : Transport) :
    List Event × IControlRestClient × Option Failure :=
  if c.isInTransactionMode then
    ([], c, some (.threw "Bad operation, client is already in transaction mode"))
  else
    match c.request { method := "POST", uri := "/mgmt/tm/transaction", data := .obj [] } tr with
    | (opts, .threw m) => ([.netCall opts], c, some (.threw m))
    | (opts, .rejected e) => ([.netCall opts], c, some (.rejected e))
    | (opts, .resolved r) =>
        match jsGet r.data "transId" with
        | .error m => ([.netCall opts], c, some (.threw m))
        | .ok tid => ([.netCall opts, .setTid tid], { c with transactionId := tid }, none)

/-- `commitTransaction()` (source lines 190-209): throw unless in
transaction mode; else capture the id with a template literal, null the
field, and only then PATCH `/mgmt/tm/transaction/{id}` with body
`{state: "VALIDATING"}`.  Result: trace, post-state, and the dispatch
outcome the returned promise settles with. -/
def commitTransaction (c : IControlRestClient) (tr : Transport) :
    List Event × IControlRestClient × (Failure ⊕ IControlRestResponse) :=
  if !(c.isInTransactionMode) then
    ([], c, .inl (.threw "Bad operation, client is not in transaction mode"))
  else
    let transactionId := jsToString c.transactionId
    let c1 : IControlRestClient := { c with transactionId := .null }
    let p := c1.request
      { method := "PATCH", uri := "/mgmt/tm/transaction/" ++ transactionId,
        data := .obj [("state", .str "VALIDATING")] } tr
    ([.setTid .null, .netCall p.1], c1,
      match p.2 with
      | .threw m => .inl (.threw m)
      | .rejected e => .inl (.rejected e)
      | .resolved r => .inr r)

/-- `rollbackTransaction(transactionId)` (source lines 216-221): throw
if in transaction mode; else DELETE the given transaction resource. -/
def rollbackTransaction (c : IControlRestClient) (transactionId : JSValue) (tr : Transport) :
    List Event × IControlRestClient × (Failure ⊕ IControlRestResponse) :=
  if c.isInTransactionMode then
    ([], c, .inl (.threw "Bad operation, client is in transaction mode"))
  else
    match c.request
        { method := "DELETE", uri := "/mgmt/tm/transaction/" ++ jsToString transactionId } tr with
    | (opts, .threw m) => ([.netCall opts], c, .inl (.threw m))
    | (opts, .rejected e) => ([.netCall opts], c, .inl (.rejected e))
    | (opts, .resolved r) => ([.netCall opts], c, .inr r)

/-- The loop body of `IControlRestResponse.expand`, iterating the
snapshot of keys taken from the payload being expanded.  `aliased` is
true in the no-argument call where `data` IS `this.data` (so the reads
`this.data[key]` see the writes); when a distinct payload is passed,
reads go to the immutable `thisData`.  Each matching field issues a GET
with `ignoreTransaction: true` and writes the fetched body under the
suffix-stripped key of the payload being expanded. -/
def expandLoop (cli : IControlRestClient) (tr : Transport) (parseUri : JSValue → String)
    (aliased : Bool) (thisData : JSValue) :
    List String → JSValue → List RequestOptions →
    List RequestOptions × Except Failure JSValue
  | [], dat, acc => (acc, .ok dat)
  | k :: ks, dat, acc =>
      let src := if aliased then dat else thisData
      let val := jsGetD src k
      if strEndsWith k "Reference" && truthy val && !(isUndefined (jsGetD val "link")) then
        match cli.request
            { method := "GET", uri := parseUri (jsGetD val "link"),
              ignoreTransaction := .bool true } tr with
        | (opts, .threw m) => (acc ++ [opts], .error (.threw m))
        | (opts, .rejected e) => (acc ++ [opts], .error (.rejected e))
        | (opts, .resolved r) =>
            expandLoop cli tr parseUri aliased thisData ks
              (jsSet dat (k.dropRight "Reference".length) r.data) (acc ++ [opts])
      else
        expandLoop cli tr parseUri aliased thisData ks dat acc

/-- `IControlRestResponse.expand(data)` (source lines 25-48):
`data = data || this.data`, then iterate the keys of `data`, reading
each candidate value from `this.data[key]`, expanding fields whose key
ends in "Reference" and whose value carries a defined `link`.
`parseUri` abstracts the Node url module (`pathname` + `search` of the
link).  Returns the issued auxiliary calls in order and the final
payload (or the first propagated dispatch failure). -/
def IControlRestResponse.expand (resp : IControlRestResponse) (tr : Transport)
    (parseUri : JSValue → String) (arg : JSValue) :
    List RequestOptions × Except Failure JSValue :=
  let dat := if truthy arg then arg else resp.data
  let aliased := !(truthy arg)
  expandLoop resp.client tr parseUri aliased resp.data (jsKeys dat) dat []

/-- The raw parameter object handed to the factory; `none` models an
absent (`undefined`) field. -/
structure RawParams where
  url : Option String := none
  user : Option String := none
  pass : Option String := none
  strict : JSValue := .undefined
  logger : JSValue := .undefined

/-- The validating factory `iControlRest(params)` (unnamed source file,
lines 15-33): url present, `validator.isURL` (abstracted as the `isURL`
parameter, an external library), no trailing slash, user and pass
present (checked against `undefined` only); then the optional params
are defaulted (`strict = !!strict`, `logger = logger || null`).  No
network call occurs anywhere in the factory. -/
def iControlRest (isURL : String → Bool) (p : RawParams) : Except String Params :=
  match p.url with
  | none => .error "Bad params, url is missing"
  | some u =>
      if !(isURL u) then .error "Bad params, url is invalid"
      else if strEndsWith u "/" then .error "Bad params, url can NOT end with a /"
      else
        match p.user with
        | none => .error "Bad params, user is required"
        | some usr =>
            match p.pass with
            | none => .error "Bad params, pass is required"
            | some pw =>
                .ok { url := u, user := usr, pass := pw,
                      strict := truthy p.strict,
                      logger := if truthy p.logger then p.logger else .null }

/-! ## Concrete fixtures used by witnesses and counterexamples -/

/-- A small validated parameter set. -/
def sampleParams : Params := { url := "https://h", user := "u", pass := "p" }

/-- A freshly constructed session (inactive, empty overlay). -/
def sampleClient : IControlRestClient := { params := sampleParams }

/-- A session whose transaction id is the empty string: in transaction
mode by the strict null test, yet falsy. -/
def emptyTidClient : IControlRestClient :=
  { params := sampleParams, transactionId := .str "" }

/-- A session holding an ordinary (truthy) active transaction id. -/
def activeClient : IControlRestClient :=
  { params := sampleParams, transactionId := .str "42" }

/-- A plain GET descriptor with both optional fields absent. -/
def dGet : RequestDescriptor := { method := "GET", uri := "/x" }

/-- A transport oracle that always fails at the transport level. -/
def tr0 : Transport := fun _ => .err "ECONNREFUSED"

/-- A transport oracle answering every call with status 200 and a small
body. -/
def tr200 : Transport := fun _ => .resp (some 200) (.obj [("name", .str "p1")])

/-! ## C1: coordination-header injection -/

/-- C1 (amended): under a construction overlay that does not override
the headers, a dispatch carries the coordination header equal to the
raw transaction id exactly when the id is truthy and the descriptor
does not set `ignoreTransaction` strictly to `true`; with
`ignoreTransaction: true` the headers are empty regardless of state,
and while not in transaction mode they are empty as well. -/
theorem C1_header_injection (c : IControlRestClient) (d : RequestDescriptor)
    (h : c.options.headers = none) :
    (truthy c.transactionId = true → isStrictTrue d.ignoreTransaction = false →
      (c.requestOptions d).headers = [("X-F5-REST-Coordination-Id", c.transactionId)]) ∧
    (isStrictTrue d.ignoreTransaction = true → (c.requestOptions d).headers = []) ∧
    (c.isInTransactionMode = false → (c.requestOptions d).headers = []) := by
  refine ⟨?_, ?_, ?_⟩
  · intro h1 h2
    simp [IControlRestClient.requestOptions, applyOverlay, h, h1, h2]
  · intro h2
    simp [IControlRestClient.requestOptions, applyOverlay, h, h2]
  · intro h1
    have hnull : c.transactionId = .null := by
      revert h1
      unfold IControlRestClient.isInTransactionMode
      cases c.transactionId <;> simp [isNull]
    simp [IControlRestClient.requestOptions, applyOverlay, h, hnull, truthy]

/-- C1 witness: a session with active id "42" and a plain GET carries
exactly the coordination header with that id. -/
theorem C1_header_injection_witness :
    (activeClient.requestOptions dGet).headers =
      [("X-F5-REST-Coordination-Id", JSValue.str "42")] :=
  (C1_header_injection activeClient dGet rfl).1 rfl rfl

/-- C1 counterexample to the claim as stated: a session in transaction
mode (id not null) whose id is the empty string issues a dispatch with
`ignoreTransaction` unset, and the coordination header is absent. -/
theorem C1_counterexample_empty_active_id :
    emptyTidClient.isInTransactionMode = true ∧
    isStrictTrue dGet.ignoreTransaction = false ∧
    (emptyTidClient.requestOptions dGet).headers.lookup "X-F5-REST-Coordination-Id" = none :=
  ⟨rfl, rfl, rfl⟩

/-! ## C2: outcome classification -/

/-- C2 (amended): (a) a transport error rejects with the error message
and no HTTP status; (b) a response with a truthy (present and nonzero)
status code other than 200 whose body's message field can be read
rejects with that status and that message; (c) a response with status
200 resolves with the parsed body as the payload, exactly. -/
theorem C2_outcome_classification (c : IControlRestClient) :
    (∀ m, requestCallback c (.err m) =
        .rejected { message := m, httpStatus := none }) ∧
    (∀ n body msg, n ≠ 0 → n ≠ 200 → jsGet body "message" = .ok msg →
      requestCallback c (.resp (some n) body) =
        .rejected { message := errorSuper msg, httpStatus := some n }) ∧
    (∀ body, requestCallback c (.resp (some 200) body) =
      .resolved { request := some 200, data := body, client := c }) := by
  refine ⟨fun m => rfl, ?_, fun body => rfl⟩
  intro n body msg h1 h2 h3
  simp [requestCallback, statusTruthyAndNot200, bne_iff_ne, h1, h2, h3,
    IControlRestError.create]

/-- C2 witness: status 404 with body `{"message":"not found"}` rejects
with ApiFailure 404 / "not found". -/
theorem C2_outcome_classification_witness :
    requestCallback sampleClient (.resp (some 404) (.obj [("message", .str "not found")])) =
      .rejected { message := "not found", httpStatus := some 404 } :=
  (C2_outcome_classification sampleClient).2.1 404
    (.obj [("message", .str "not found")]) (.str "not found")
    (by decide) (by decide) rfl

/-- C2 counterexample to the claim as stated: a response obtained with
status code 0 — a code other than the literal 200 — is classified as
success, not as an ApiFailure, because the source guards on
`r.statusCode && r.statusCode != 200`. -/
theorem C2_counterexample_status_zero :
    requestCallback sampleClient (.resp (some 0) (.obj [])) =
      .resolved { request := some 0, data := .obj [], client := sampleClient } ∧
    (0 : Nat) ≠ 200 :=
  ⟨rfl, by decide⟩

/-! ## C3: commit ordering -/

/-- C3 (as claimed): a commit issued while in transaction mode records
the local transition to the inactive state strictly before the network
call in its event trace, leaves the session inactive, and the single
call it issues is a PATCH against the transaction resource named by the
captured id with body `{state: "VALIDATING"}` and no coordination
header (stated under the default empty construction overlay). -/
theorem C3_commit_order (c : IControlRestClient) (tr : Transport)
    (hA : c.isInTransactionMode = true) (hO : c.options = {}) :
    ∃ opts : RequestOptions,
      (commitTransaction c tr).1 = [.setTid .null, .netCall opts] ∧
      (commitTransaction c tr).2.1 = { c with transactionId := .null } ∧
      opts.method = "PATCH" ∧
      opts.url = c.params.url ++ ("/mgmt/tm/transaction/" ++ jsToString c.transactionId) ∧
      opts.body = some (.obj [("state", .str "VALIDATING")]) ∧
      opts.headers = [] := by
  refine ⟨({ c with transactionId := JSValue.null } : IControlRestClient).requestOptions
      { method := "PATCH", uri := "/mgmt/tm/transaction/" ++ jsToString c.transactionId,
        data := .obj [("state", .str "VALIDATING")] }, ?_, ?_, ?_, ?_, ?_, ?_⟩
  · unfold commitTransaction
    simp [hA, IControlRestClient.request]
  · unfold commitTransaction
    simp [hA]
  · simp [IControlRestClient.requestOptions, applyOverlay, hO]
  · simp [IControlRestClient.requestOptions, applyOverlay, hO]
  · simp [IControlRestClient.requestOptions, applyOverlay, hO, truthy]
  · simp [IControlRestClient.requestOptions, applyOverlay, hO, truthy]

/-- C3 witness: the commit of a concrete active session. -/
theorem C3_commit_order_witness :
    ∃ opts : RequestOptions,
      (commitTransaction activeClient tr0).1 = [.setTid .null, .netCall opts] ∧
      (commitTransaction activeClient tr0).2.1 =
        { activeClient with transactionId := .null } ∧
      opts.method = "PATCH" ∧
      opts.url = activeClient.params.url ++
        ("/mgmt/tm/transaction/" ++ jsToString activeClient.transactionId) ∧
      opts.body = some (.obj [("state", .str "VALIDATING")]) ∧
      opts.headers = [] :=
  C3_commit_order activeClient tr0 rfl rfl

/-! ## C5: begin while already active -/

/-- C5 (amended): a second `beginTransaction` on a session already in
transaction mode throws synchronously with the message
"Bad operation, client is already in transaction mode" (which carries
the quoted phrase but is not equal to it), issues no network call
(empty trace), and leaves the session unchanged. -/
theorem C5_begin_while_active (c : IControlRestClient) (tr : Transport)
    (h : c.isInTransactionMode = true) :
    beginTransaction c tr =
      ([], c, some (.threw "Bad operation, client is already in transaction mode")) := by
  unfold beginTransaction
  simp [h]

/-- C5 witness: the refusal on a concrete active session. -/
theorem C5_begin_while_active_witness :
    beginTransaction activeClient tr0 =
      ([], activeClient, some (.threw "Bad operation, client is already in transaction mode")) :=
  C5_begin_while_active activeClient tr0 rfl

/-- C5 counterexample to the claim as stated: the thrown message is the
full sentence, not the string "already in transaction mode" the claim
gives as the message. -/
theorem C5_counterexample_message :
    beginTransaction activeClient tr0 =
      ([], activeClient, some (.threw "Bad operation, client is already in transaction mode")) ∧
    "Bad operation, client is already in transaction mode" ≠ "already in transaction mode" :=
  ⟨rfl, by decide⟩

/-! ## C6: commit while inactive -/

/-- C6 (as claimed): a commit on an inactive session fails
synchronously (with the OperationError whose message carries
"not in transaction mode"), issues no network call (empty trace), and
leaves the session unchanged. -/
theorem C6_commit_while_inactive (c : IControlRestClient) (tr : Transport)
    (h : c.isInTransactionMode = false) :
    commitTransaction c tr =
      ([], c, .inl (.threw "Bad operation, client is not in transaction mode")) := by
  unfold commitTransaction
  simp [h]

/-- C6 witness: the refusal on a concrete inactive session. -/
theorem C6_commit_while_inactive_witness :
    commitTransaction sampleClient tr0 =
      ([], sampleClient, .inl (.threw "Bad operation, client is not in transaction mode")) :=
  C6_commit_while_inactive sampleClient tr0 rfl

/-! ## C7: factory validation -/

/-- C7 (amended): a session returned by the factory has a url that the
URL validator accepted and that lacks a trailing slash, and its
credentials are the given (defined, possibly empty) strings; a missing
url, a validator-rejected url, a trailing-slash url, a missing user or
a missing pass each fail synchronously with the corresponding
configuration error.  The factory performs no network call (its
embedding takes no transport). -/
theorem C7_factory_validation (isURL : String → Bool) (p : RawParams) :
    (∀ v, iControlRest isURL p = .ok v →
        isURL v.url = true ∧ strEndsWith v.url "/" = false ∧
        p.url = some v.url ∧ p.user = some v.user ∧ p.pass = some v.pass) ∧
    (p.url = none → iControlRest isURL p = .error "Bad params, url is missing") ∧
    (∀ u, p.url = some u → isURL u = false →
        iControlRest isURL p = .error "Bad params, url is invalid") ∧
    (∀ u, p.url = some u → isURL u = true → strEndsWith u "/" = true →
        iControlRest isURL p = .error "Bad params, url can NOT end with a /") ∧
    (∀ u, p.url = some u → isURL u = true → strEndsWith u "/" = false → p.user = none →
        iControlRest isURL p = .error "Bad params, user is required") ∧
    (∀ u usr, p.url = some u → isURL u = true → strEndsWith u "/" = false →
        p.user = some usr → p.pass = none →
        iControlRest isURL p = .error "Bad params, pass is required") := by
  refine ⟨?_, ?_, ?_, ?_, ?_, ?_⟩
  · intro v hv
    unfold iControlRest at hv
    split at hv
    · exact Except.noConfusion hv
    next u hu =>
      split at hv
      · exact Except.noConfusion hv
      next h1 =>
        split at hv
        · exact Except.noConfusion hv
        next h2 =>
          split at hv
          · exact Except.noConfusion hv
          next usr hus =>
            split at hv
            · exact Except.noConfusion hv
            next pw hp =>
              cases hv
              refine ⟨?_, ?_, hu, hus, hp⟩
              · simpa using h1
              · simpa using h2
  · intro hu
    unfold iControlRest
    rw [hu]
  · intro u hu h1
    unfold iControlRest
    rw [hu]
    simp [h1]
  · intro u hu h1 h2
    unfold iControlRest
    rw [hu]
    simp [h1, h2]
  · intro u hu h1 h2 h3
    unfold iControlRest
    rw [hu, h3]
    simp [h1, h2]
  · intro u usr hu h1 h2 h3 h4
    unfold iControlRest
    rw [hu, h3, h4]
    simp [h1, h2]

/-- A concrete URL validator standing in for the external
`validator.isURL` in the closed statements. -/
def isURL0 : String → Bool := fun s => strStartsWith s "https://"

/-- C7 witness: a missing pass fails with the configuration error. -/
theorem C7_factory_validation_witness :
    iControlRest isURL0 { url := some "https://host", user := some "u" } =
      .error "Bad params, pass is required" :=
  (C7_factory_validation isURL0 { url := some "https://host", user := some "u" }).2.2.2.2.2
    "https://host" "u" rfl rfl rfl rfl rfl

/-- C7 counterexample to the claim as stated: construction with an
empty-string user succeeds and returns a session whose credential is
empty, because the source checks credentials against `undefined` only. -/
theorem C7_counterexample_empty_credentials :
    iControlRest isURL0 { url := some "https://host", user := some "", pass := some "x" } =
      .ok { url := "https://host", user := "", pass := "x" } :=
  rfl

/-! ## C8: ApiFailure message extraction -/

/-- C8 (amended): for a truthy status code other than 200, when a
parsed body exists (any value but `null`/`undefined`) the ApiFailure is
built without itself failing: its message is the body's `message` field
passed through `Error` stringification, which turns an absent field
(`undefined`) into the empty string; when no parsed body exists the
callback throws a TypeError instead of producing an ApiFailure. -/
theorem C8_api_failure_message (c : IControlRestClient) (n : Nat)
    (h1 : n ≠ 0) (h2 : n ≠ 200) :
    (∀ body, isNullish body = false →
        requestCallback c (.resp (some n) body) =
          .rejected { message := errorSuper (jsGetD body "message"), httpStatus := some n }) ∧
    errorSuper .undefined = "" ∧
    (∀ body, isNullish body = true →
        ∃ m, requestCallback c (.resp (some n) body) = .threw m) := by
  have hs : statusTruthyAndNot200 (some n) = true := by
    simp [statusTruthyAndNot200, bne_iff_ne, h1, h2]
  refine ⟨?_, rfl, ?_⟩
  · intro body hb
    have hg : jsGet body "message" = .ok (jsGetD body "message") := by
      cases body <;> simp [isNullish] at hb <;> rfl
    simp [requestCallback, hs, hg, IControlRestError.create]
  · intro body hb
    cases body with
    | null =>
        exact ⟨"TypeError: cannot read property " ++ "message" ++ " of null",
          by simp [requestCallback, hs, jsGet]⟩
    | undefined =>
        exact ⟨"TypeError: cannot read property " ++ "message" ++ " of undefined",
          by simp [requestCallback, hs, jsGet]⟩
    | bool b => simp [isNullish] at hb
    | num m => simp [isNullish] at hb
    | str s => simp [isNullish] at hb
    | obj fs => simp [isNullish] at hb

/-- C8 witness: a 404 with body `{}` (no message field) yields an
ApiFailure whose message defaults to the empty string. -/
theorem C8_api_failure_message_witness :
    requestCallback sampleClient (.resp (some 404) (.obj [])) =
      .rejected { message := "", httpStatus := some 404 } :=
  (C8_api_failure_message sampleClient 404 (by decide) (by decide)).1 (.obj []) rfl

/-- C8 counterexample to the claim as stated: a 404 with no parsed body
at all makes the callback throw while building the failure, instead of
producing an ApiFailure with a safe default message. -/
theorem C8_counterexample_no_body :
    requestCallback sampleClient (.resp (some 404) .undefined) =
      .threw "TypeError: cannot read property message of undefined" :=
  rfl

/-! ## C9: back-reference on the error envelope -/

/-- C9: the error envelope drops the session reference — the value
built by the constructor is independent of the `client` parameter the
dispatch call sites pass, so no failure carries a back-reference to the
session that issued the failing call. -/
theorem C9_error_drops_client (m : JSValue) (hs : Option Nat)
    (c1 c2 : Option IControlRestClient) :
    IControlRestError.create { message := m, httpStatus := hs, client := c1 } =
      IControlRestError.create { message := m, httpStatus := hs, client := c2 } :=
  rfl

/-! ## C10: falsy non-null transaction id -/

/-- C10 (as claimed): with a transaction id that is falsy yet not null,
the session reports transaction mode, `getTransactionId` succeeds,
`beginTransaction` refuses with the already-in-transaction error and no
network call, and yet the computed request headers of every dispatch
omit the coordination header (stated under an overlay that does not
override headers). -/
theorem C10_falsy_nonnull_transaction_id (c : IControlRestClient) (d : RequestDescriptor)
    (tr : Transport) (h1 : isNull c.transactionId = false)
    (h2 : truthy c.transactionId = false) (h3 : c.options.headers = none) :
    c.isInTransactionMode = true ∧
    c.getTransactionId = .ok c.transactionId ∧
    beginTransaction c tr =
      ([], c, some (.threw "Bad operation, client is already in transaction mode")) ∧
    (c.requestOptions d).headers = [] := by
  have hm : c.isInTransactionMode = true := by
    simp [IControlRestClient.isInTransactionMode, h1]
  refine ⟨hm, ?_, ?_, ?_⟩
  · simp [IControlRestClient.getTransactionId, hm]
  · unfold beginTransaction
    simp [hm]
  · simp [IControlRestClient.requestOptions, applyOverlay, h3, h2]

/-- C10 witness: the empty-string transaction id set via
`setTransactionId`. -/
theorem C10_falsy_nonnull_transaction_id_witness :
    emptyTidClient.isInTransactionMode = true ∧
    emptyTidClient.getTransactionId = .ok (.str "") ∧
    beginTransaction emptyTidClient tr0 =
      ([], emptyTidClient, some (.threw "Bad operation, client is already in transaction mode")) ∧
    (emptyTidClient.requestOptions dGet).headers = [] :=
  C10_falsy_nonnull_transaction_id emptyTidClient dGet tr0 rfl rfl rfl

/-! ## C4: reference expansion -/

/-- The reference value of the worked example: a link-only summary. -/
def c4link : JSValue :=
  .obj [("link", .str "https://host/mgmt/tm/ltm/pool/p1?ver=1")]

/-- The payload of the worked example: one matching reference field. -/
def c4payload : JSValue := .obj [("poolReference", c4link)]

/-- A concrete stand-in for the Node url module: path plus query of
links under the fixed host of the fixtures. -/
def parseUri0 : JSValue → String := fun v =>
  (jsToString v).drop "https://host".length

/-- An envelope whose own data is empty; the example payload is passed
to `expand` as the argument. -/
def c4respMismatch : IControlRestResponse :=
  { request := some 200, data := .obj [], client := sampleClient }

/-- An envelope whose own data is the example payload; `expand` is
called without an argument. -/
def c4respSelf : IControlRestResponse :=
  { request := some 200, data := c4payload, client := sampleClient }

/-- C4 (code bug, evaluated): passing the example payload to `expand`
on an envelope whose own data is empty issues no call at all and
returns the payload unchanged — the loop iterates the passed payload's
keys but reads each candidate value from `this.data[key]`.  The same
payload expanded as the envelope's own data (the no-argument call)
issues exactly one GET with empty headers against the link's path and
query and adds the `pool` field while keeping `poolReference`. -/
theorem C4_expand_reads_own_data :
    IControlRestResponse.expand c4respMismatch tr200 parseUri0 c4payload =
      ([], .ok c4payload) ∧
    IControlRestResponse.expand c4respSelf tr200 parseUri0 .undefined =
      ([{ method := "GET", url := "https://h/mgmt/tm/ltm/pool/p1?ver=1",
          auth := { user := "u", pass := "p" }, headers := [], timeout := 2000,
          json := true, strictSSL := false, body := none }],
        .ok (.obj [("poolReference", c4link), ("pool", .obj [("name", .str "p1")])])) :=
  ⟨rfl, rfl⟩
